import Mathlib

/-!
Verification of `pyexchange/okex.py` (OKCoin/OKEX exchange API client).

The Python module is shallowly embedded: pure logic becomes Lean functions,
HTTP transport becomes an explicit function parameter, exceptions become
`Except`.  The `Wad` fixed-point decimal type from `pymaker.numeric` is an
external dependency (not part of this repository); per the design notes it is
treated as an opaque arbitrary-precision decimal with standard arithmetic, so
it is modelled as `ℚ`.
-/

namespace Okex

/-- `Wad` is pymaker's fixed-point decimal type, external to this repository.
The design notes describe it as an opaque arbitrary-precision decimal with
standard arithmetic; we model it as the rationals. -/
abbrev Wad := ℚ

/-- `Wad.from_number`: conversion from a wire number into the canonical
decimal.  In the rational model it is the identity. -/
def Wad.from_number (x : ℚ) : Wad := x

/-- Embeds the `Order` class (okex.py lines 29-46).  The constructor stores
each argument verbatim after `isinstance` type assertions; the Lean structure
fields correspond one-to-one. -/
structure Order where
  order_id : Int
  timestamp : Nat
  pair : String
  is_sell : Bool
  price : Wad
  amount : Wad
  deal_amount : Wad

/-- Embeds `Order.remaining_sell_amount` (okex.py line 58):
`(amount - deal_amount) if is_sell else (amount - deal_amount)*price`. -/
def Order.remaining_sell_amount (o : Order) : Wad :=
  if o.is_sell then o.amount - o.deal_amount else (o.amount - o.deal_amount) * o.price

/-- Embeds `Order.__eq__` (okex.py lines 60-64): equality compares
`order_id` and `pair` only. -/
def Order.eqPy (o other : Order) : Bool :=
  o.order_id == other.order_id && o.pair == other.pair

/-- Embeds `Order.__hash__` (okex.py lines 66-67): `hash((order_id, pair))`.
Python's builtin tuple hash is opaque, so it is taken as a parameter `h`;
the embedded method applies it to exactly the pair `(order_id, pair)`. -/
def Order.hashPy (h : Int × String → Int) (o : Order) : Int :=
  h (o.order_id, o.pair)

/-- Embeds the `Trade` class (okex.py lines 73-93): six fields stored
verbatim after type assertions. -/
structure Trade where
  trade_id : Int
  timestamp : Nat
  is_sell : Bool
  price : Wad
  amount : Wad
  amount_symbol : String

/-- A raw order row as consumed by `OKEXApi._parse_order` and
`OKEXApi._filter_order`: the fields of the decoded JSON object that the
code reads (`order_id`, `create_date` in milliseconds, `symbol`, `type`,
`price`, `amount`, `deal_amount`). -/
structure RawOrder where
  order_id : Int
  create_date : Nat
  symbol : String
  type : String
  price : ℚ
  amount : ℚ
  deal_amount : ℚ

/-- Embeds `OKEXApi._filter_order` (okex.py lines 244-247):
`item['type'] in ['buy', 'sell']`. -/
def filter_order (item : RawOrder) : Bool :=
  item.type == "buy" || item.type == "sell"

/-- Embeds `OKEXApi._parse_order` (okex.py lines 249-258).  The timestamp is
`int(item['create_date']/1000)`; on the non-negative integers the code
consumes this is floor division by 1000, modelled as `Nat` division. -/
def parse_order (item : RawOrder) : Order :=
  { order_id := item.order_id
    timestamp := item.create_date / 1000
    pair := item.symbol
    is_sell := item.type == "sell"
    price := Wad.from_number item.price
    amount := Wad.from_number item.amount
    deal_amount := Wad.from_number item.deal_amount }

/-- A raw public-trade row as consumed by `OKEXApi.get_all_trades`: the
fields the code reads (`tid`, `date`, `type`, `price`, `amount`). -/
structure RawTrade where
  tid : Int
  date : Nat
  type : String
  price : ℚ
  amount : ℚ

/-- Embeds `OKEXApi.get_all_trades` (okex.py lines 233-242).  The HTTP GET
transport is abstracted as `get : resource → query-string → rows`; the body
maps each raw row into a `Trade` exactly as the `lambda` does; the trade
timestamp is `item['date']` unchanged. -/
def get_all_trades (get : String → String → List RawTrade) (pair : String) :
    List Trade :=
  let result := get "/api/v1/trades.do" ("symbol=" ++ pair)
  result.map (fun item =>
    { trade_id := item.tid
      timestamp := item.date
      is_sell := item.type == "sell"
      price := Wad.from_number item.price
      amount := Wad.from_number item.amount
      amount_symbol := ((pair.splitOn "_").headD "").toLower })

/-! ## MD5 (`hashlib.md5`), used by `OKEXApi._create_signature` -/

/-- UTF-8 encoding of a single character, as in `str.encode("utf8")`. -/
def utf8Char (c : Char) : List Nat :=
  let n := c.toNat
  if n < 0x80 then [n]
  else if n < 0x800 then
    [0xC0 ||| (n >>> 6), 0x80 ||| (n &&& 0x3F)]
  else if n < 0x10000 then
    [0xE0 ||| (n >>> 12), 0x80 ||| ((n >>> 6) &&& 0x3F), 0x80 ||| (n &&& 0x3F)]
  else
    [0xF0 ||| (n >>> 18), 0x80 ||| ((n >>> 12) &&& 0x3F),
     0x80 ||| ((n >>> 6) &&& 0x3F), 0x80 ||| (n &&& 0x3F)]

/-- UTF-8 encoding of a string as a byte list (`data.encode("utf8")`). -/
def utf8Bytes (s : String) : List Nat :=
  s.data.flatMap utf8Char

/-- The 64 per-round sine-table constants of MD5 (RFC 1321). -/
def md5K : List Nat :=
  [0xd76aa478, 0xe8c7b756, 0x242070db, 0xc1bdceee,
   0xf57c0faf, 0x4787c62a, 0xa8304613, 0xfd469501,
   0x698098d8, 0x8b44f7af, 0xffff5bb1, 0x895cd7be,
   0x6b901122, 0xfd987193, 0xa679438e, 0x49b40821,
   0xf61e2562, 0xc040b340, 0x265e5a51, 0xe9b6c7aa,
   0xd62f105d, 0x02441453, 0xd8a1e681, 0xe7d3fbc8,
   0x21e1cde6, 0xc33707d6, 0xf4d50d87, 0x455a14ed,
   0xa9e3e905, 0xfcefa3f8, 0x676f02d9, 0x8d2a4c8a,
   0xfffa3942, 0x8771f681, 0x6d9d6122, 0xfde5380c,
   0xa4beea44, 0x4bdecfa9, 0xf6bb4b60, 0xbebfbc70,
   0x289b7ec6, 0xeaa127fa, 0xd4ef3085, 0x04881d05,
   0xd9d4d039, 0xe6db99e5, 0x1fa27cf8, 0xc4ac5665,
   0xf4292244, 0x432aff97, 0xab9423a7, 0xfc93a039,
   0x655b59c3, 0x8f0ccc92, 0xffeff47d, 0x85845dd1,
   0x6fa87e4f, 0xfe2ce6e0, 0xa3014314, 0x4e0811a1,
   0xf7537e82, 0xbd3af235, 0x2ad7d2bb, 0xeb86d391]

/-- The 64 per-round left-rotation amounts of MD5. -/
def md5S : List Nat :=
  [7, 12, 17, 22, 7, 12, 17, 22, 7, 12, 17, 22, 7, 12, 17, 22,
   5, 9, 14, 20, 5, 9, 14, 20, 5, 9, 14, 20, 5, 9, 14, 20,
   4, 11, 16, 23, 4, 11, 16, 23, 4, 11, 16, 23, 4, 11, 16, 23,
   6, 10, 15, 21, 6, 10, 15, 21, 6, 10, 15, 21, 6, 10, 15, 21]

/-- Left rotation of a 32-bit word. -/
def rotl32 (x s : Nat) : Nat :=
  ((x <<< s) ||| (x >>> (32 - s))) % 2 ^ 32

/-- Little-endian byte rendering of `w` on `k` bytes. -/
def leBytes (k w : Nat) : List Nat :=
  (List.range k).map (fun i => (w >>> (8 * i)) % 256)

/-- The running MD5 state: four 32-bit words. -/
structure Md5State where
  a : Nat
  b : Nat
  c : Nat
  d : Nat

/-- MD5 padding: append `0x80`, then zero bytes up to 56 mod 64, then the
64-bit little-endian bit length. -/
def md5Pad (msg : List Nat) : List Nat :=
  let z := (64 + 56 - (msg.length + 1) % 64) % 64
  msg ++ [0x80] ++ List.replicate z 0 ++ leBytes 8 ((8 * msg.length) % 2 ^ 64)

/-- Reads the i-th little-endian 32-bit word of a 64-byte block. -/
def blockWord (block : List Nat) (i : Nat) : Nat :=
  block.getD (4 * i) 0 + (block.getD (4 * i + 1) 0) <<< 8 +
    (block.getD (4 * i + 2) 0) <<< 16 + (block.getD (4 * i + 3) 0) <<< 24

/-- One MD5 round (round index `i`, message words `m`). -/
def md5Round (m : Nat → Nat) (st : Md5State) (i : Nat) : Md5State :=
  let b := st.b
  let c := st.c
  let d := st.d
  let fg : Nat × Nat :=
    if i < 16 then ((b &&& c) ||| ((0xFFFFFFFF ^^^ b) &&& d), i)
    else if i < 32 then ((d &&& b) ||| ((0xFFFFFFFF ^^^ d) &&& c), (5 * i + 1) % 16)
    else if i < 48 then (b ^^^ c ^^^ d, (3 * i + 5) % 16)
    else (c ^^^ (b ||| (0xFFFFFFFF ^^^ d)), (7 * i) % 16)
  let f := (fg.1 + st.a + md5K.getD i 0 + m fg.2) % 2 ^ 32
  { a := d, b := (b + rotl32 f (md5S.getD i 0)) % 2 ^ 32, c := b, d := c }

/-- Processes one 64-byte block: 64 rounds, then add into the state mod 2^32. -/
def md5Block (st : Md5State) (block : List Nat) : Md5State :=
  let r := (List.range 64).foldl (md5Round (blockWord block)) st
  { a := (st.a + r.a) % 2 ^ 32, b := (st.b + r.b) % 2 ^ 32,
    c := (st.c + r.c) % 2 ^ 32, d := (st.d + r.d) % 2 ^ 32 }

/-- Splits a byte list into 64-byte blocks, with structural fuel so the
kernel can evaluate it (the fuel `l.length` always suffices since each step
consumes a nonempty prefix). -/
def toBlocksAux : Nat → List Nat → List (List Nat)
  | 0, _ => []
  | fuel + 1, l => if l = [] then [] else l.take 64 :: toBlocksAux fuel (l.drop 64)

/-- Splits a byte list into 64-byte blocks. -/
def toBlocks (l : List Nat) : List (List Nat) :=
  toBlocksAux l.length l

/-- The MD5 digest (16 bytes) of a byte list.  Validated against the RFC 1321
test vectors during development. -/
def md5 (msg : List Nat) : List Nat :=
  let st := (toBlocks (md5Pad msg)).foldl md5Block
    { a := 0x67452301, b := 0xefcdab89, c := 0x98badcfe, d := 0x10325476 }
  leBytes 4 st.a ++ leBytes 4 st.b ++ leBytes 4 st.c ++ leBytes 4 st.d

/-- The sixteen uppercase hexadecimal digit characters. -/
def hexDigits : List Char :=
  ['0', '1', '2', '3', '4', '5', '6', '7', '8', '9', 'A', 'B', 'C', 'D', 'E', 'F']

/-- Uppercase hexadecimal digit for `n % 16`. -/
def hexDigit (n : Nat) : Char :=
  hexDigits.getD (n % 16) 'X'

/-- Two uppercase hexadecimal characters for one byte. -/
def byteHex (b : Nat) : List Char :=
  [hexDigit (b / 16), hexDigit b]

/-- Embeds `hashlib.md5(data).hexdigest().upper()`: the MD5 digest of a byte
list rendered as uppercase hexadecimal. -/
def md5HexUpper (msg : List Nat) : String :=
  ⟨(md5 msg).flatMap byteHex⟩

/-! ## Request signing and POST body assembly -/

/-- Embeds the accumulation loop of `OKEXApi._create_signature` (okex.py
lines 263-265): `sign += key + '=' + str(params[key]) + '&'` over the
lexicographically sorted keys.  The parameter dictionary is modelled as an
association list whose values already carry their `str()` rendering (both
the signer and the urlencoded body only ever consume `str(value)`). -/
def sign_base (params : List (String × String)) : String :=
  ((params.map Prod.fst).insertionSort (· ≤ ·)).foldl
    (fun sign key => sign ++ key ++ "=" ++ ((params.lookup key).getD "") ++ "&") ""

/-- Embeds `OKEXApi._create_signature` (okex.py lines 260-267):
MD5 of the UTF-8 encoding of the sorted `key=value&` concatenation followed
by `secret_key=<secret>`, rendered as uppercase hex. -/
def create_signature (secret_key : String) (params : List (String × String)) : String :=
  md5HexUpper (utf8Bytes (sign_base params ++ "secret_key=" ++ secret_key))

/-- Follows the spec's words (§4.4): concatenate `key=value&` for each key in
lexicographically sorted order, then append `secret_key=<shared secret>`.
This is the spec-side reconstruction compared against `sign_base`. -/
def spec_sign_data (params : List (String × String)) (secret_key : String) : String :=
  String.join (((params.map Prod.fst).insertionSort (· ≤ ·)).map
    (fun key => key ++ "=" ++ ((params.lookup key).getD "") ++ "&")) ++
    "secret_key=" ++ secret_key

/-- Embeds the body assembly of `OKEXApi._http_post` (okex.py lines 298-299):
`params['api_key'] = self.api_key; params['sign'] = self._create_signature(params)`.
Call sites never pass `api_key` or `sign` themselves, so each assignment adds
a fresh key at the end of the dict's insertion order; the resulting list is
what `urllib.parse.urlencode` serialises into the transmitted body. -/
def http_post_params (api_key secret_key : String)
    (params : List (String × String)) : List (String × String) :=
  let params := params ++ [("api_key", api_key)]
  params ++ [("sign", create_signature secret_key params)]

/-! ## Response validation and the private operations built on it -/

/-- A decoded JSON scalar, as far as the validator and `cancel_order`
inspect payload fields (the Python literal `True` is `jbool true`). -/
inductive JVal where
  | jbool (b : Bool)
  | jnum (n : Int)
  | jstr (s : String)
deriving DecidableEq

/-- A raw transport result as consumed by `OKEXApi._result`: HTTP ok flag,
status code, reason phrase and the JSON-decoded body (an object, modelled as
an association list). -/
structure TransportResult where
  ok : Bool
  status_code : Nat
  reason : String
  body : List (String × JVal)

/-- The classified failures the module can raise.  The Python code raises
plain `Exception`s; these constructors carry the spec's taxonomy
(`TransportError`, `ApiError`, negative-result `ApiError`,
`UnsupportedOperation`) plus the builtin `KeyError`/`ValueError` that field
access and `int()` conversion can raise. -/
inductive ApiFailure where
  | transportError (status_code : Nat) (reason : String)
  | apiError (code : JVal)
  | negativeResult (data : List (String × JVal))
  | unsupportedOperation (msg : String)
  | keyError (key : String)
  | valueError
deriving DecidableEq

/-- Embeds `OKEXApi._result` (okex.py lines 269-284): raise on a non-ok HTTP
status; then, only when `check_result` is set, raise `ApiError` when the
payload carries `error_code`, and a negative-result failure when it lacks a
`result` field or that field is not the literal `True`; otherwise return the
decoded payload. -/
def result_ (result : TransportResult) (check_result : Bool) :
    Except ApiFailure (List (String × JVal)) :=
  if !result.ok then
    .error (.transportError result.status_code result.reason)
  else
    let data := result.body
    if check_result then
      match data.lookup "error_code" with
      | some code => .error (.apiError code)
      | none =>
        if data.lookup "result" = some (.jbool true) then .ok data
        else .error (.negativeResult data)
    else
      .ok data

/-- Python's `int(...)` applied to a decoded JSON scalar: integers pass
through, strings parse (or raise `ValueError`), booleans coerce to 0/1. -/
def jvalToInt : JVal → Option Int
  | .jnum n => some n
  | .jstr s => s.toInt?
  | .jbool b => some (if b then 1 else 0)

/-- Embeds `OKEXApi.cancel_order` (okex.py lines 210-227).  The signed POST
round trip is abstracted as `post : resource → caller params → raw transport
result` (the `api_key`/`sign` enrichment of `_http_post` is modelled
separately by `http_post_params`); its result is validated by `_result` with
`check_result = True`, and success is `int(result['order_id']) == order_id`. -/
def cancel_order (post : String → List (String × JVal) → TransportResult)
    (pair : String) (order_id : Int) : Except ApiFailure Bool :=
  match result_ (post "/api/v1/cancel_order.do"
      [("symbol", .jstr pair), ("order_id", .jnum order_id)]) true with
  | .error e => .error e
  | .ok result =>
    match result.lookup "order_id" with
    | none => .error (.keyError "order_id")
    | some v =>
      match jvalToInt v with
      | none => .error .valueError
      | some i => .ok (i == order_id)

/-- Embeds `OKEXApi.get_trades` (okex.py lines 229-231): unconditionally
`raise Exception("get_trades() not available for OKEX")`.  The transport is a
parameter only to show no request is made: the result never consults it. -/
def get_trades (transport : String → List (String × JVal) → TransportResult)
    (pair : String) : Except ApiFailure (List Trade) :=
  .error (.unsupportedOperation "get_trades() not available for OKEX")

/-! ## Paginated order history -/

/-- The fixed page size of `get_orders_history` (okex.py line 166). -/
def page_length : Nat := 200

/-- Embeds the `for page in range(1, 100)` loop body of
`OKEXApi.get_orders_history` (okex.py lines 165-184).  `fetch page` stands
for `_http_post("/api/v1/order_history.do", {symbol, status: 100,
current_page: page, page_length: 200})['orders']`; `fuel` counts the loop
iterations still allowed by `range(1, 100)`.  Each iteration appends the
filtered rows, then breaks on an empty page, a short page, or once the
accumulated filtered rows reach `number_of_orders`. -/
def order_history_loop (fetch : Nat → List RawOrder) (number_of_orders : Nat) :
    Nat → Nat → List RawOrder → List RawOrder
  | 0, _, orders => orders
  | fuel + 1, page, orders =>
    let result := fetch page
    let orders' := orders ++ result.filter filter_order
    if result.length = 0 then orders'
    else if result.length < page_length then orders'
    else if number_of_orders ≤ orders'.length then orders'
    else order_history_loop fetch number_of_orders fuel (page + 1) orders'

/-- Embeds `OKEXApi.get_orders_history` (okex.py lines 161-186): run the page
loop from page 1 with the 99 iterations `range(1, 100)` allows, truncate the
accumulated filtered rows to `number_of_orders`, and map them through
`_parse_order`.  `fetch pair page` abstracts the validated transport response
for the given symbol and `current_page`. -/
def get_orders_history (fetch : String → Nat → List RawOrder) (pair : String)
    (number_of_orders : Nat) : List Order :=
  ((order_history_loop (fetch pair) number_of_orders 99 1 []).take
    number_of_orders).map parse_order

/-- Follows the spec's words (§4.5): fetch pages of size 200 starting at page
1 up to a hard cap of 99 pages, accumulate filtered rows, and stop when a
page returns zero rows, or fewer rows than the page size, or the accumulated
filtered rows reach `number_of_orders`. -/
def spec_history_rows (fetch : Nat → List RawOrder) (number_of_orders : Nat)
    (page : Nat) (acc : List RawOrder) : List RawOrder :=
  if 99 < page then acc
  else
    let rows := fetch page
    let acc' := acc ++ rows.filter filter_order
    if rows.length = 0 ∨ rows.length < 200 ∨ number_of_orders ≤ acc'.length then acc'
    else spec_history_rows fetch number_of_orders (page + 1) acc'
termination_by 100 - page

/-- Follows the spec's words (§4.5): the spec-side order history — the
accumulated filtered rows of `spec_history_rows`, truncated to exactly
`number_of_orders` and mapped to `Order` records. -/
def spec_orders_history (fetch : Nat → List RawOrder) (number_of_orders : Nat) :
    List Order :=
  ((spec_history_rows fetch number_of_orders 1 []).take number_of_orders).map
    parse_order

/-! ## Theorems -/

/-- C5: `remaining_sell_amount` is `amount - deal_amount` for a sell order
and `(amount - deal_amount) * price` for a buy order; on the spec's examples
(sell, amount 10, deal_amount 3) it yields 7, and (buy, price 2, amount 10,
deal_amount 3) yields 14. -/
theorem C5_remaining_sell_amount (o : Order) :
    (o.is_sell = true → o.remaining_sell_amount = o.amount - o.deal_amount) ∧
    (o.is_sell = false →
      o.remaining_sell_amount = (o.amount - o.deal_amount) * o.price) ∧
    Order.remaining_sell_amount ⟨1, 0, "btc_usd", true, 5, 10, 3⟩ = 7 ∧
    Order.remaining_sell_amount ⟨2, 0, "btc_usd", false, 2, 10, 3⟩ = 14 := by
  refine ⟨fun h => ?_, fun h => ?_, ?_, ?_⟩
  · simp [Order.remaining_sell_amount, h]
  · simp [Order.remaining_sell_amount, h]
  · norm_num [Order.remaining_sell_amount]
  · norm_num [Order.remaining_sell_amount]

/-- Witness for C5 at a concrete sell order. -/
theorem C5_remaining_sell_amount_witness :
    Order.remaining_sell_amount ⟨1, 0, "btc_usd", true, 5, 10, 3⟩ =
      (10 : Wad) - 3 :=
  (C5_remaining_sell_amount ⟨1, 0, "btc_usd", true, 5, 10, 3⟩).1 rfl

/-- C6: two Orders are equal under `__eq__` exactly when `order_id` and
`pair` both match, irrespective of the other fields, and `__hash__` is a
function of exactly `(order_id, pair)`, so equal orders hash equal (for any
choice of Python's opaque tuple hash `h`). -/
theorem C6_order_eq_hash (o₁ o₂ : Order) :
    (Order.eqPy o₁ o₂ = true ↔ o₁.order_id = o₂.order_id ∧ o₁.pair = o₂.pair) ∧
    (∀ h : Int × String → Int, Order.eqPy o₁ o₂ = true →
      Order.hashPy h o₁ = Order.hashPy h o₂) := by
  constructor
  · simp [Order.eqPy]
  · intro h he
    simp [Order.eqPy] at he
    simp [Order.hashPy, he.1, he.2]

/-- Witness for C6: two concrete orders agreeing only on `order_id` and
`pair` are equal and hash equal. -/
theorem C6_order_eq_hash_witness :
    Order.eqPy ⟨1, 0, "btc_usd", true, 1, 1, 0⟩ ⟨1, 5, "btc_usd", false, 2, 3, 1⟩ = true ∧
    Order.hashPy (fun p => p.1) ⟨1, 0, "btc_usd", true, 1, 1, 0⟩ =
      Order.hashPy (fun p => p.1) ⟨1, 5, "btc_usd", false, 2, 3, 1⟩ :=
  ⟨(C6_order_eq_hash ⟨1, 0, "btc_usd", true, 1, 1, 0⟩ ⟨1, 5, "btc_usd", false, 2, 3, 1⟩).1.mpr
      ⟨rfl, rfl⟩,
   (C6_order_eq_hash ⟨1, 0, "btc_usd", true, 1, 1, 0⟩ ⟨1, 5, "btc_usd", false, 2, 3, 1⟩).2
      (fun p => p.1)
      ((C6_order_eq_hash ⟨1, 0, "btc_usd", true, 1, 1, 0⟩ ⟨1, 5, "btc_usd", false, 2, 3, 1⟩).1.mpr
        ⟨rfl, rfl⟩)⟩

/-- C7: `_parse_order` divides the raw `create_date` by 1000 to obtain the
order timestamp, while `get_all_trades` carries the raw `date` through to the
trade timestamp unchanged. -/
theorem C7_timestamp_units (item : RawOrder)
    (get : String → String → List RawTrade) (pair : String) :
    (parse_order item).timestamp = item.create_date / 1000 ∧
    (get_all_trades get pair).map Trade.timestamp =
      (get "/api/v1/trades.do" ("symbol=" ++ pair)).map RawTrade.date := by
  constructor
  · rfl
  · simp [get_all_trades]

/-- C8: `get_trades` always fails with the unsupported-operation error,
for every pair, and its result does not depend on the transport (no HTTP
request can influence it). -/
theorem C8_get_trades_unsupported
    (transport transport' : String → List (String × JVal) → TransportResult)
    (pair pair' : String) :
    get_trades transport pair =
      .error (.unsupportedOperation "get_trades() not available for OKEX") ∧
    get_trades transport pair = get_trades transport' pair' :=
  ⟨rfl, rfl⟩

/-- C9 counterexample: the Order constructor does not enforce
`0 ≤ deal_amount ≤ amount`; a well-typed order with `amount = 10` and
`deal_amount = 20` is accepted, refuting the claimed invariant. -/
theorem C9_order_invariant_counterexample :
    ¬ ∀ o : Order, 0 ≤ o.deal_amount ∧ o.deal_amount ≤ o.amount := by
  intro h
  have h2 := (h ⟨1, 0, "btc_usd", true, 1, 10, 20⟩).2
  norm_num at h2

/-- C9 (amended): the Order constructor checks only argument types and
stores every field verbatim; in particular it does not enforce
`0 ≤ deal_amount ≤ amount`, and an order with `deal_amount > amount` is
accepted. -/
theorem C9_order_constructor_stores_fields (order_id : Int) (timestamp : Nat)
    (pair : String) (is_sell : Bool) (price amount deal_amount : Wad) :
    (Order.mk order_id timestamp pair is_sell price amount deal_amount).order_id = order_id ∧
    (Order.mk order_id timestamp pair is_sell price amount deal_amount).timestamp = timestamp ∧
    (Order.mk order_id timestamp pair is_sell price amount deal_amount).pair = pair ∧
    (Order.mk order_id timestamp pair is_sell price amount deal_amount).is_sell = is_sell ∧
    (Order.mk order_id timestamp pair is_sell price amount deal_amount).price = price ∧
    (Order.mk order_id timestamp pair is_sell price amount deal_amount).amount = amount ∧
    (Order.mk order_id timestamp pair is_sell price amount deal_amount).deal_amount = deal_amount ∧
    ∃ o : Order, o.amount < o.deal_amount :=
  ⟨rfl, rfl, rfl, rfl, rfl, rfl, rfl,
   ⟨⟨1, 0, "btc_usd", true, 1, 10, 20⟩, by norm_num⟩⟩

/-- C10: the transmitted POST body is the caller parameters followed by
exactly `api_key` and `sign`; the `sign` value is computed over the body
minus `sign` itself (which therefore covers the inserted `api_key`). -/
theorem C10_http_post_params (api_key secret_key : String)
    (params : List (String × String)) :
    http_post_params api_key secret_key params =
      (params ++ [("api_key", api_key)]) ++
        [("sign", create_signature secret_key (params ++ [("api_key", api_key)]))] ∧
    (http_post_params api_key secret_key params).map Prod.fst =
      params.map Prod.fst ++ ["api_key", "sign"] ∧
    (http_post_params api_key secret_key params).dropLast =
      params ++ [("api_key", api_key)] ∧
    (http_post_params api_key secret_key params).getLast? =
      some ("sign", create_signature secret_key
        ((http_post_params api_key secret_key params).dropLast)) := by
  refine ⟨rfl, ?_, ?_, ?_⟩
  · simp [http_post_params]
  · simp [http_post_params]
  · simp [http_post_params]

/-- C3: the response validator raises the transport failure whenever the
HTTP status is not ok, regardless of `check_result`; with an ok status and
`check_result` set it raises `ApiError` on a payload carrying `error_code`,
raises the negative-result failure when the payload lacks a `result` field or
that field is not the literal `True`, and returns the payload when `result`
is literally `True`; with an ok status and `check_result` unset it returns
the payload unchanged. -/
theorem C3_result_validator (r : TransportResult) (check_result : Bool) :
    (r.ok = false → result_ r check_result =
      .error (.transportError r.status_code r.reason)) ∧
    (r.ok = true → ∀ code, r.body.lookup "error_code" = some code →
      result_ r true = .error (.apiError code)) ∧
    (r.ok = true → r.body.lookup "error_code" = none →
      r.body.lookup "result" = some (.jbool true) → result_ r true = .ok r.body) ∧
    (r.ok = true → r.body.lookup "error_code" = none →
      r.body.lookup "result" = none →
      result_ r true = .error (.negativeResult r.body)) ∧
    (r.ok = true → r.body.lookup "error_code" = none →
      ∀ v, r.body.lookup "result" = some v → v ≠ .jbool true →
        result_ r true = .error (.negativeResult r.body)) ∧
    (r.ok = true → result_ r false = .ok r.body) := by
  refine ⟨fun h => ?_, fun h code hc => ?_, fun h hc hres => ?_,
    fun h hc hres => ?_, fun h hc v hres hne => ?_, fun h => ?_⟩
  · simp [result_, h]
  · simp [result_, h, hc]
  · simp [result_, h, hc, hres]
  · simp [result_, h, hc, hres]
  · simp [result_, h, hc, hres, hne]
  · simp [result_, h]

/-- Witness for C3: the payload `{"error_code": "10001"}` is rejected with
`ApiError` under `check_result = true` and returned unchanged under
`check_result = false`. -/
theorem C3_result_validator_witness :
    result_ ⟨true, 200, "OK", [("error_code", JVal.jstr "10001")]⟩ true =
      .error (.apiError (.jstr "10001")) ∧
    result_ ⟨true, 200, "OK", [("error_code", JVal.jstr "10001")]⟩ false =
      .ok [("error_code", JVal.jstr "10001")] :=
  ⟨(C3_result_validator ⟨true, 200, "OK", [("error_code", JVal.jstr "10001")]⟩
      true).2.1 rfl (.jstr "10001") rfl,
   (C3_result_validator ⟨true, 200, "OK", [("error_code", JVal.jstr "10001")]⟩
      false).2.2.2.2.2 rfl⟩

/-- C4: whenever the cancel response passes validation and carries an
`order_id` that converts to the integer `i`, `cancel_order` returns the ok
boolean `i == order_id` — true exactly when the returned id matches the
requested one, and plain `false` (no raised failure) on a mismatch. -/
theorem C4_cancel_order (post : String → List (String × JVal) → TransportResult)
    (pair : String) (order_id : Int) (data : List (String × JVal)) (v : JVal) (i : Int)
    (hval : result_ (post "/api/v1/cancel_order.do"
        [("symbol", .jstr pair), ("order_id", .jnum order_id)]) true = .ok data)
    (hfield : data.lookup "order_id" = some v)
    (hconv : jvalToInt v = some i) :
    (cancel_order post pair order_id = .ok true ↔ i = order_id) ∧
    (i ≠ order_id → cancel_order post pair order_id = .ok false) := by
  have hc : cancel_order post pair order_id = .ok (i == order_id) := by
    simp [cancel_order, hval, hfield, hconv]
  constructor
  · rw [hc]
    simp
  · intro hne
    rw [hc]
    simp [hne]

/-- Witness for C4: a stub transport answering with order id 5 makes
cancelling order 4 return `ok false`, not an error. -/
theorem C4_cancel_order_witness :
    cancel_order
      (fun _ _ => ⟨true, 200, "OK",
        [("result", JVal.jbool true), ("order_id", JVal.jnum 5)]⟩)
      "btc_usd" 4 = .ok false :=
  (C4_cancel_order
    (fun _ _ => ⟨true, 200, "OK",
      [("result", JVal.jbool true), ("order_id", JVal.jnum 5)]⟩)
    "btc_usd" 4 [("result", JVal.jbool true), ("order_id", JVal.jnum 5)]
    (JVal.jnum 5) 5 rfl rfl rfl).2 (by decide)

/-- The source page loop agrees with the spec-side accumulation when the
remaining fuel and the current page account for the full `range(1, 100)`. -/
theorem order_history_loop_eq_spec (fetch : Nat → List RawOrder) (n : Nat) :
    ∀ fuel page acc, fuel + page = 100 →
      order_history_loop fetch n fuel page acc = spec_history_rows fetch n page acc := by
  intro fuel
  induction fuel with
  | zero =>
    intro page acc h
    have hp : page = 100 := by omega
    subst hp
    rw [spec_history_rows]
    simp [order_history_loop]
  | succ fuel ih =>
    intro page acc h
    have hp : ¬ 99 < page := by omega
    rw [spec_history_rows]
    by_cases h0 : (fetch page).length = 0
    · simp [order_history_loop, hp, h0]
    · by_cases h1 : (fetch page).length < 200
      · simp [order_history_loop, page_length, hp, h0, h1]
      · by_cases h2 : n ≤ acc.length + ((fetch page).filter filter_order).length
        · simp [order_history_loop, page_length, hp, h0, h1, h2]
        · simp only [order_history_loop, page_length, hp, h0, h1, h2, if_false,
            List.length_append, if_true, eq_self_iff_true, or_self, or_false,
            false_or, ite_false, ite_true]
          exact ih (page + 1) _ (by omega)

/-- The source page loop only consults pages the fuel still allows: two
fetch functions agreeing on pages up to 99 drive it identically. -/
theorem order_history_loop_congr (f f' : Nat → List RawOrder) (n : Nat) :
    ∀ fuel page acc, fuel + page ≤ 100 → (∀ p, p ≤ 99 → f' p = f p) →
      order_history_loop f' n fuel page acc = order_history_loop f n fuel page acc := by
  intro fuel
  induction fuel with
  | zero => intro page acc _ _; rfl
  | succ fuel ih =>
    intro page acc h hag
    have hp : page ≤ 99 := by omega
    simp only [order_history_loop, hag page hp]
    by_cases h0 : (f page).length = 0
    · simp [h0]
    · by_cases h1 : (f page).length < page_length
      · simp [h0, h1]
      · by_cases h2 : n ≤ acc.length + ((f page).filter filter_order).length
        · simp [h0, h1, h2]
        · simp only [h0, h1, h2, if_false, List.length_append, ite_false]
          exact ih (page + 1) _ (by omega) hag

/-- C2: `get_orders_history` coincides with the spec-side pagination
(pages of 200 from page 1, hard cap 99 pages, accumulate type-filtered rows,
stop on an empty page, a short page, or once the accumulated filtered rows
reach `number_of_orders`, truncate to `number_of_orders`, map to Orders);
its result never exceeds `number_of_orders` entries; and it never consults
pages beyond 99. -/
theorem C2_get_orders_history (fetch : String → Nat → List RawOrder)
    (pair : String) (number_of_orders : Nat) :
    get_orders_history fetch pair number_of_orders =
      spec_orders_history (fetch pair) number_of_orders ∧
    (get_orders_history fetch pair number_of_orders).length ≤ number_of_orders ∧
    (∀ fetch' : String → Nat → List RawOrder,
      (∀ page, page ≤ 99 → fetch' pair page = fetch pair page) →
      get_orders_history fetch' pair number_of_orders =
        get_orders_history fetch pair number_of_orders) := by
  refine ⟨?_, ?_, ?_⟩
  · unfold get_orders_history spec_orders_history
    rw [order_history_loop_eq_spec (fetch pair) number_of_orders 99 1 [] (by omega)]
  · simp only [get_orders_history, List.length_map]
    exact List.length_take_le _ _
  · intro fetch' hag
    unfold get_orders_history
    rw [order_history_loop_congr (fetch pair) (fetch' pair) number_of_orders 99 1 []
      (by omega) hag]

/-- Witness for C2 at a concrete stub transport returning one buy row on
every page (so the short-page condition stops the loop at page 1). -/
theorem C2_get_orders_history_witness :
    get_orders_history (fun _ _ => [⟨7, 1500000000000, "btc_usd", "buy", 1, 2, 1⟩])
        "btc_usd" 2 =
      spec_orders_history (fun _ => [⟨7, 1500000000000, "btc_usd", "buy", 1, 2, 1⟩]) 2 ∧
    (get_orders_history (fun _ _ => [⟨7, 1500000000000, "btc_usd", "buy", 1, 2, 1⟩])
        "btc_usd" 2).length ≤ 2 ∧
    get_orders_history (fun _ _ => [⟨7, 1500000000000, "btc_usd", "buy", 1, 2, 1⟩])
        "btc_usd" 2 =
      get_orders_history (fun _ _ => [⟨7, 1500000000000, "btc_usd", "buy", 1, 2, 1⟩])
        "btc_usd" 2 :=
  ⟨(C2_get_orders_history (fun _ _ => [⟨7, 1500000000000, "btc_usd", "buy", 1, 2, 1⟩])
      "btc_usd" 2).1,
   (C2_get_orders_history (fun _ _ => [⟨7, 1500000000000, "btc_usd", "buy", 1, 2, 1⟩])
      "btc_usd" 2).2.1,
   (C2_get_orders_history (fun _ _ => [⟨7, 1500000000000, "btc_usd", "buy", 1, 2, 1⟩])
      "btc_usd" 2).2.2 _ (fun _ _ => rfl)⟩

/-- The MD5 digest always has exactly 16 bytes. -/
theorem md5_length (msg : List Nat) : (md5 msg).length = 16 := by
  simp [md5, leBytes]

/-- Rendering a byte list in hex doubles its length. -/
theorem flatMap_byteHex_length (l : List Nat) :
    (l.flatMap byteHex).length = 2 * l.length := by
  induction l with
  | nil => simp
  | cons x t ih =>
    simp only [List.flatMap_cons, List.length_append, ih, byteHex,
      List.length_cons, List.length_nil]
    omega

/-- The uppercase hex digest is always 32 characters long. -/
theorem md5HexUpper_length (msg : List Nat) : (md5HexUpper msg).length = 32 := by
  show ((md5 msg).flatMap byteHex).length = 32
  rw [flatMap_byteHex_length, md5_length]

/-- A hex digit is always one of the sixteen uppercase hex characters. -/
theorem hexDigit_mem (n : Nat) : hexDigit n ∈ hexDigits := by
  have h : n % 16 < 16 := Nat.mod_lt _ (by omega)
  show hexDigits.getD (n % 16) 'X' ∈ hexDigits
  generalize n % 16 = k at h
  interval_cases k <;> decide

/-- Every character of the uppercase hex digest is an uppercase hex digit. -/
theorem md5HexUpper_chars (msg : List Nat) :
    ∀ c ∈ (md5HexUpper msg).data, c ∈ hexDigits := by
  intro c hc
  have hc' : c ∈ (md5 msg).flatMap byteHex := hc
  rw [List.mem_flatMap] at hc'
  obtain ⟨b, _, hcb⟩ := hc'
  simp only [byteHex, List.mem_cons, List.not_mem_nil, or_false] at hcb
  rcases hcb with h | h <;> (subst h; exact hexDigit_mem _)

/-- Association-list lookup is insensitive to permutation when keys are
distinct (Python dicts with the same key-value bindings agree on lookup). -/
theorem lookup_eq_of_perm {l₁ l₂ : List (String × String)} (hp : l₁.Perm l₂)
    (hnd : (l₁.map Prod.fst).Nodup) (k : String) :
    l₁.lookup k = l₂.lookup k := by
  induction hp with
  | nil => rfl
  | cons x hp ih =>
    obtain ⟨kx, vx⟩ := x
    have hnd' := hnd
    simp only [List.map_cons, List.nodup_cons] at hnd'
    cases hkx : k == kx with
    | true => simp [List.lookup, hkx]
    | false => simp [List.lookup, hkx, ih hnd'.2]
  | swap x y l =>
    obtain ⟨kx, vx⟩ := x
    obtain ⟨ky, vy⟩ := y
    have hne : ky ≠ kx := by
      simp only [List.map_cons, List.nodup_cons, List.mem_cons] at hnd
      exact fun hcon => hnd.1 (Or.inl hcon)
    cases hky : k == ky with
    | true =>
      have hkky : k = ky := eq_of_beq hky
      have hkx : (k == kx) = false := by
        apply beq_eq_false_iff_ne.mpr
        rw [hkky]
        exact hne
      simp [List.lookup, hky, hkx]
    | false =>
      cases hkx : k == kx with
      | true => simp [List.lookup, hky, hkx]
      | false => simp [List.lookup, hky, hkx]
  | trans hp₁ hp₂ ih₁ ih₂ =>
    exact (ih₁ hnd).trans (ih₂ ((hp₁.map Prod.fst).nodup hnd))

/-- Permuting the parameter list does not change the sorted key list. -/
theorem insertionSort_keys_eq {p₁ p₂ : List (String × String)} (hp : p₁.Perm p₂) :
    (p₁.map Prod.fst).insertionSort (· ≤ ·) =
      (p₂.map Prod.fst).insertionSort (· ≤ ·) :=
  List.eq_of_perm_of_sorted
    ((List.perm_insertionSort _ _).trans
      ((hp.map Prod.fst).trans (List.perm_insertionSort _ _).symm))
    (List.sorted_insertionSort _ _)
    (List.sorted_insertionSort _ _)

/-- The concatenated signing string is insensitive to parameter insertion
order (given distinct keys). -/
theorem sign_base_perm {p₁ p₂ : List (String × String)} (hp : p₁.Perm p₂)
    (hnd : (p₁.map Prod.fst).Nodup) : sign_base p₁ = sign_base p₂ := by
  unfold sign_base
  rw [insertionSort_keys_eq hp]
  simp only [lookup_eq_of_perm hp hnd]

/-- Concatenating one string per list element by a left fold is joining the
mapped list onto the accumulator. -/
theorem foldl_append_eq_join (f : String → String) (l : List String) (a : String) :
    l.foldl (fun acc k => acc ++ f k) a = a ++ String.join (l.map f) := by
  induction l generalizing a with
  | nil =>
    show a = a ++ ""
    rw [String.append_empty]
  | cons x t ih =>
    show List.foldl _ (a ++ f x) t = _
    rw [ih, String.join_eq, String.join_eq]
    apply congrArg String.mk
    simp [String.append_assoc]

/-- The source's `sign +=` accumulation produces exactly the spec's
"concatenate `key=value&` in sorted order, append `secret_key=...`". -/
theorem sign_base_eq_spec (params : List (String × String)) (secret_key : String) :
    sign_base params ++ "secret_key=" ++ secret_key =
      spec_sign_data params secret_key := by
  unfold sign_base spec_sign_data
  have hfun : (fun (sign key : String) =>
        sign ++ key ++ "=" ++ ((params.lookup key).getD "") ++ "&") =
      (fun (sign key : String) =>
        sign ++ (key ++ "=" ++ ((params.lookup key).getD "") ++ "&")) := by
    funext s k
    simp [String.append_assoc]
  rw [hfun, foldl_append_eq_join]
  rw [String.empty_append]

set_option maxRecDepth 100000 in
/-- RFC 1321 test vector: the MD5 of the empty message. -/
theorem md5_vector_empty :
    md5HexUpper (utf8Bytes "") = "D41D8CD98F00B204E9800998ECF8427E" := by
  decide

set_option maxRecDepth 100000 in
/-- RFC 1321 test vector: the MD5 of `"abc"`. -/
theorem md5_vector_abc :
    md5HexUpper (utf8Bytes "abc") = "900150983CD24FB0D6963F7D28E17F72" := by
  decide

set_option maxRecDepth 100000 in
/-- End-to-end signing vector: signing `{a: 1, b: 2}` with secret `sk`
reproduces `hashlib.md5(b"a=1&b=2&secret_key=sk").hexdigest().upper()`. -/
theorem create_signature_vector :
    create_signature "sk" [("a", "1"), ("b", "2")] =
      "EBADFC32B202DE3D23B2F712269883A7" := by
  have hsort : (([("a", "1"), ("b", "2")] : List (String × String)).map
      Prod.fst).insertionSort (· ≤ ·) = ["a", "b"] :=
    List.eq_of_perm_of_sorted (List.perm_insertionSort _ _)
      (List.sorted_insertionSort _ _)
      (by
        simp [List.sorted_cons]
        exact le_of_lt (by decide))
  unfold create_signature sign_base
  rw [hsort]
  decide

/-- C1: for any parameter map with distinct keys and any secret, the
signature is the uppercase hexadecimal MD5 digest of the UTF-8 encoding of
the sorted `key=value&` concatenation followed by `secret_key=<secret>`; it
is always exactly 32 characters, all uppercase hex digits; and parameter
maps with the same key-value bindings (any insertion order) sign
identically. -/
theorem C1_create_signature (params : List (String × String)) (secret_key : String)
    (hnd : (params.map Prod.fst).Nodup) :
    create_signature secret_key params =
      md5HexUpper (utf8Bytes (spec_sign_data params secret_key)) ∧
    (create_signature secret_key params).length = 32 ∧
    (∀ c ∈ (create_signature secret_key params).data, c ∈ hexDigits) ∧
    (∀ params₂, params.Perm params₂ →
      create_signature secret_key params = create_signature secret_key params₂) := by
  refine ⟨?_, md5HexUpper_length _, md5HexUpper_chars _, ?_⟩
  · unfold create_signature
    rw [sign_base_eq_spec]
  · intro p₂ hperm
    unfold create_signature
    rw [sign_base_perm hperm hnd]

/-- Witness for C1: the concrete maps `{b:2, a:1}` and `{a:1, b:2}` have
distinct keys, sign identically, and the signature is 32 characters. -/
theorem C1_create_signature_witness :
    (([("b", "2"), ("a", "1")] : List (String × String)).map Prod.fst).Nodup ∧
    create_signature "sk" [("b", "2"), ("a", "1")] =
      create_signature "sk" [("a", "1"), ("b", "2")] ∧
    (create_signature "sk" [("b", "2"), ("a", "1")]).length = 32 :=
  ⟨by decide,
   (C1_create_signature [("b", "2"), ("a", "1")] "sk" (by decide)).2.2.2
     [("a", "1"), ("b", "2")] (by decide),
   (C1_create_signature [("b", "2"), ("a", "1")] "sk" (by decide)).2.1⟩

end Okex
